import Mathlib

/-!
Shallow embedding of src/src/lxc/confile.c: the configuration-ingestion
engine of the lxc container runtime.  Pure Lean translations of the
directive handlers, the dispatch table and the line parser, followed by
theorems about them.  C strings are Lean strings (worked on as `List Char`),
machine integers are `Nat`/`Int`, in-place mutation of `struct lxc_conf`
becomes explicit state passing (`Option ConfErr × LxcConf`: the C functions
return an error code and leave the — possibly mutated — aggregate behind),
and allocation failure is not modelled (`malloc` always succeeds).
-/

set_option linter.unusedVariables false

/-! ## Error taxonomy

The C code signals every failure as `-1` next to a logged diagnostic; the
spec names the distinct failure sites (`InvalidDirective`, `UnknownDirective`,
`InvalidValue`, `InvalidAddress`, `MissingContext`, `PathTooLong`,
`NameTooLong`).  Each C error site is mapped to its spec name. -/

inductive ConfErr where
  | invalidDirective
  | unknownDirective
  | invalidValue
  | invalidAddress
  | missingContext
  | pathTooLong
  | nameTooLong
deriving DecidableEq

/-! ## Data model (struct lxc_conf and friends)

Modelled from the spec: the struct declarations live in conf.h, which is not
under src/.  Field names follow the C structs; `NULL` pointers become `none`,
`memset(0)` becomes the explicit zero record.  `EMPTY` is the zero value of
the network-type enumeration, so a zeroed device has type `empty`. -/

inductive NetType where
  | empty
  | veth
  | macvlan
  | phys
deriving DecidableEq

structure LxcInetdev where
  addr : Nat
  bcast : Nat
  prefixlen : Int
deriving DecidableEq

structure LxcInet6dev where
  addr : Nat
  prefixlen : Int
deriving DecidableEq

structure LxcNetdev where
  type : NetType
  flags : Nat
  link : Option String
  name : Option String
  hwaddr : Option String
  mtu : Option String
  ipv4 : List LxcInetdev
  ipv6 : List LxcInet6dev
deriving DecidableEq

structure LxcCgroup where
  subsystem : String
  value : String
deriving DecidableEq

structure LxcConf where
  network : List LxcNetdev
  cgroup : List LxcCgroup
  mount_list : List String
  fstab : Option String
  rootfs : Option String
  pivotdir : Option String
  utsname : Option String
  pts : Int
  tty : Int
deriving DecidableEq

/-- The zeroed `struct lxc_netdev` produced by `malloc` + `memset(0)` +
`lxc_list_init` on its two binding lists. -/
def emptyNetdev : LxcNetdev :=
  { type := NetType.empty, flags := 0, link := none, name := none,
    hwaddr := none, mtu := none, ipv4 := [], ipv6 := [] }

/-! ## Doubly linked list primitives

Modelled from the spec: list.h is not under src/.  The spec fixes their
semantics: the Network Device list is "conceptually prepended (newest
first)" — the code inserts with `lxc_list_add` and reads the current device
with `lxc_list_first_elem` — while cgroup and mount entries are inserted
with `lxc_list_add_tail` and are "appended (oldest first)".  So
`lxc_list_add` inserts at the head and `lxc_list_add_tail` at the tail. -/

def lxc_list_add (l : List α) (x : α) : List α := x :: l

def lxc_list_add_tail (l : List α) (x : α) : List α := l ++ [x]

def lxc_list_first_elem (l : List α) : Option α := l.head?

/-! ## C string primitives (string.h), on `List Char` -/

/-- C `strstr`: splits `hay` at the first occurrence of `needle`, returning
the part before it and the suffix starting at the occurrence; `none` when
`needle` does not occur.  (`strstr` with an empty needle returns `hay`.) -/
def strstrSplit (needle : List Char) : List Char → Option (List Char × List Char)
  | [] => if needle = [] then some ([], []) else none
  | c :: cs =>
    if needle.isPrefixOf (c :: cs) then some ([], c :: cs)
    else
      match strstrSplit needle cs with
      | some (pre, suf) => some (c :: pre, suf)
      | none => none

/-- The C idiom `p = strstr(s, sep); if (p), *p = 0; rest = p + strlen(sep)`:
the part before the first occurrence of `sep` and the part after it. -/
def splitAtFirst (sep hay : String) : Option (String × String) :=
  match strstrSplit sep.toList hay.toList with
  | some (pre, suf) => some (String.mk pre, String.mk (suf.drop sep.toList.length))
  | none => none

/-- C `atoi`: skip leading whitespace, optional sign, then decimal digits;
yields 0 on no digits (overflow is not modelled). -/
def atoiLoop : List Char → Nat → Nat
  | [], acc => acc
  | c :: cs, acc => if c.isDigit then atoiLoop cs (acc * 10 + (c.toNat - 48)) else acc

def isCSpace (c : Char) : Bool :=
  (c == ' ') || (c == '\t') || (c == '\n') || (c == '\r') || (c == '\x0b') || (c == '\x0c')

def atoi (s : String) : Int :=
  match s.toList.dropWhile isCSpace with
  | '-' :: cs => - (atoiLoop cs 0 : Int)
  | '+' :: cs => (atoiLoop cs 0 : Int)
  | cs => (atoiLoop cs 0 : Int)

/-! ## Address parsing (arpa/inet.h)

Modelled from the spec: `inet_pton` is libc, an external collaborator; the
spec says the IPv4 address is "dotted-quad" and the IPv6 address is in
"standard IPv6 textual form".  The result is the address as a number in its
natural big-endian (network) interpretation. -/

def splitOnChar (sep : Char) : List Char → List (List Char)
  | [] => [[]]
  | c :: cs =>
    match splitOnChar sep cs with
    | [] => [[]]
    | g :: gs => if c = sep then [] :: g :: gs else (c :: g) :: gs

/-- One dotted-quad component: one to three decimal digits, value at most
255. -/
def parseDecOctet (cs : List Char) : Option Nat :=
  if cs = [] then none
  else if cs.length > 3 then none
  else if cs.all Char.isDigit then
    let n := cs.foldl (fun a c => a * 10 + (c.toNat - 48)) 0
    if n ≤ 255 then some n else none
  else none

/-- Modelled from the spec: `inet_pton(AF_INET, s, ...)` — strict
dotted-quad, exactly four octets. -/
def inet_pton4 (s : String) : Option Nat :=
  match splitOnChar '.' s.toList with
  | [g1, g2, g3, g4] =>
    match parseDecOctet g1, parseDecOctet g2, parseDecOctet g3, parseDecOctet g4 with
    | some a, some b, some c, some d =>
      some (a * 16777216 + b * 65536 + c * 256 + d)
    | _, _, _, _ => none
  | _ => none

def hexDigitVal (c : Char) : Option Nat :=
  if '0' ≤ c ∧ c ≤ '9' then some (c.toNat - 48)
  else if 'a' ≤ c ∧ c ≤ 'f' then some (c.toNat - 87)
  else if 'A' ≤ c ∧ c ≤ 'F' then some (c.toNat - 55)
  else none

/-- One IPv6 group: one to four hexadecimal digits. -/
def parseHexGroup (cs : List Char) : Option Nat :=
  if cs = [] then none
  else if cs.length > 4 then none
  else (cs.mapM hexDigitVal).map (fun ds => ds.foldl (fun a d => a * 16 + d) 0)

def parseGroups (cs : List Char) : Option (List Nat) :=
  if cs = [] then some []
  else (splitOnChar ':' cs).mapM parseHexGroup

def combineGroups (gs : List Nat) : Nat :=
  gs.foldl (fun a g => a * 65536 + g) 0

/-- Modelled from the spec: `inet_pton(AF_INET6, s, ...)` — colon-separated
hexadecimal groups with at most one double-colon zero-run compression (the
embedded dotted-quad tail form is not modelled; no directive in the spec or
the claims exercises it). -/
def inet_pton6 (s : String) : Option Nat :=
  let cs := s.toList
  match strstrSplit [':', ':'] cs with
  | none =>
    match (splitOnChar ':' cs).mapM parseHexGroup with
    | some gs => if gs.length = 8 then some (combineGroups gs) else none
    | none => none
  | some (l, suf) =>
    let r := suf.drop 2
    match parseGroups l, parseGroups r with
    | some lg, some rg =>
      if lg.length + rg.length ≤ 7 then
        some (combineGroups (lg ++ List.replicate (8 - lg.length - rg.length) 0 ++ rg))
      else none
    | _, _ => none

/-! ## Platform constants -/

/-- sys/param.h `MAXPATHLEN` on Linux. -/
def MAXPATHLEN : Nat := 4096

/-- net/if.h `IFNAMSIZ` on Linux. -/
def IFNAMSIZ : Nat := 16

/-- `sizeof(((struct utsname *)0)->nodename)`: 65 on Linux (glibc). -/
def utsname_nodename_size : Nat := 65

/-- net/if.h `IFF_UP`. -/
def IFF_UP : Nat := 1

/-! ## Network handlers (confile.c) -/

/-- The classful default prefix length: `config_ip_prefix` in confile.c.
`IN_CLASSA`/`IN_CLASSB`/`IN_CLASSC` test the top bits of the 32-bit
address; on a 32-bit value the bit tests are written as the equivalent
range tests (`IN_CLASSA a = (a AND 0x80000000 == 0)` is `a < 0x80000000`,
and so on). -/
def config_ip_prefix (a : Nat) : Int :=
  if a < 2147483648 then 32 - 24
  else if a < 3221225472 then 32 - 16
  else if a < 3758096384 then 32 - 8
  else 0

/-- `config_network_type`.  Note the source attaches the zero-initialized
device to the network list *before* the strcmp chain that sets its type, so
an unrecognized value fails with the fresh device already prepended. -/
def config_network_type (key value : String) (conf : LxcConf) : Option ConfErr × LxcConf :=
  let withDev (nd : LxcNetdev) : LxcConf :=
    { conf with network := lxc_list_add conf.network nd }
  if value = "veth" then (none, withDev { emptyNetdev with type := NetType.veth })
  else if value = "macvlan" then (none, withDev { emptyNetdev with type := NetType.macvlan })
  else if value = "phys" then (none, withDev { emptyNetdev with type := NetType.phys })
  else if value = "empty" then (none, withDev { emptyNetdev with type := NetType.empty })
  else (some ConfErr.invalidValue, withDev emptyNetdev)

/-- `network_netdev`: the current device is the first element of the network
list; an empty list is the `MissingContext` failure. -/
def network_netdev (key value : String) (network : List LxcNetdev) : Option LxcNetdev :=
  lxc_list_first_elem network

/-- The C handlers mutate the current device through the pointer returned by
`network_netdev`, i.e. they replace the head of the network list. -/
def setHead (network : List LxcNetdev) (d : LxcNetdev) : List LxcNetdev :=
  match network with
  | [] => []
  | _ :: rest => d :: rest

def config_network_flags (key value : String) (conf : LxcConf) : Option ConfErr × LxcConf :=
  match network_netdev key value conf.network with
  | none => (some ConfErr.missingContext, conf)
  | some netdev =>
    (none, { conf with
      network := setHead conf.network { netdev with flags := netdev.flags ||| IFF_UP } })

/-- `network_ifname`: length-checked owned copy of an interface name. -/
def network_ifname (value : String) : Option String :=
  if value.length > IFNAMSIZ then none else some value

def config_network_link (key value : String) (conf : LxcConf) : Option ConfErr × LxcConf :=
  match network_netdev key value conf.network with
  | none => (some ConfErr.missingContext, conf)
  | some netdev =>
    match network_ifname value with
    | none => (some ConfErr.invalidValue, conf)
    | some s =>
      (none, { conf with network := setHead conf.network { netdev with link := some s } })

def config_network_name (key value : String) (conf : LxcConf) : Option ConfErr × LxcConf :=
  match network_netdev key value conf.network with
  | none => (some ConfErr.missingContext, conf)
  | some netdev =>
    match network_ifname value with
    | none => (some ConfErr.invalidValue, conf)
    | some s =>
      (none, { conf with network := setHead conf.network { netdev with name := some s } })

def config_network_hwaddr (key value : String) (conf : LxcConf) : Option ConfErr × LxcConf :=
  match network_netdev key value conf.network with
  | none => (some ConfErr.missingContext, conf)
  | some netdev =>
    (none, { conf with network := setHead conf.network { netdev with hwaddr := some value } })

def config_network_mtu (key value : String) (conf : LxcConf) : Option ConfErr × LxcConf :=
  match network_netdev key value conf.network with
  | none => (some ConfErr.missingContext, conf)
  | some netdev =>
    (none, { conf with network := setHead conf.network { netdev with mtu := some value } })

/-- `config_network_ipv4`: split off an optional broadcast token at the
first space, then an optional prefix at the first slash of the remaining
address token; parse address (and broadcast when present) as dotted-quad;
the prefix defaults to the classful derivation; prepend the new binding
(`lxc_list_add`) to the current device's ipv4 list. -/
def config_network_ipv4 (key value : String) (conf : LxcConf) : Option ConfErr × LxcConf :=
  match network_netdev key value conf.network with
  | none => (some ConfErr.missingContext, conf)
  | some netdev =>
    let (addr, bcast) :=
      match splitAtFirst " " value with
      | some (a, b) => (a, some b)
      | none => (value, none)
    let (addr2, pfx) :=
      match splitAtFirst "/" addr with
      | some (a, p) => (a, some p)
      | none => (addr, none)
    match inet_pton4 addr2 with
    | none => (some ConfErr.invalidAddress, conf)
    | some a =>
      let attach (bb : Nat) : Option ConfErr × LxcConf :=
        let p : Int :=
          match pfx with
          | some ps => atoi ps
          | none => config_ip_prefix a
        let bnd : LxcInetdev := { addr := a, bcast := bb, prefixlen := p }
        let nd2 : LxcNetdev := { netdev with ipv4 := lxc_list_add netdev.ipv4 bnd }
        (none, { conf with network := setHead conf.network nd2 })
      match bcast with
      | some b =>
        match inet_pton4 b with
        | none => (some ConfErr.invalidAddress, conf)
        | some bb => attach bb
      | none => attach 0

/-- `config_network_ipv6`: default prefix 64, overridden by an optional
slash-separated value; prepend the new binding to the current device's ipv6
list. -/
def config_network_ipv6 (key value : String) (conf : LxcConf) : Option ConfErr × LxcConf :=
  match network_netdev key value conf.network with
  | none => (some ConfErr.missingContext, conf)
  | some netdev =>
    let (addr, p) :=
      match splitAtFirst "/" value with
      | some (a, ps) => (a, atoi ps)
      | none => (value, (64 : Int))
    match inet_pton6 addr with
    | none => (some ConfErr.invalidAddress, conf)
    | some av =>
      let bnd : LxcInet6dev := { addr := av, prefixlen := p }
      let nd2 : LxcNetdev := { netdev with ipv6 := lxc_list_add netdev.ipv6 bnd }
      (none, { conf with network := setHead conf.network nd2 })

/-! ## Scalar, cgroup, mount and utsname handlers (confile.c) -/

def config_pts (key value : String) (conf : LxcConf) : Option ConfErr × LxcConf :=
  (none, { conf with pts := atoi value })

def config_tty (key value : String) (conf : LxcConf) : Option ConfErr × LxcConf :=
  (none, { conf with tty := atoi value })

/-- `config_cgroup`: recover the subsystem name after the first occurrence
of "lxc.cgroup." in the key; a key without that sub-string, or with nothing
after it, fails. -/
def config_cgroup (key value : String) (conf : LxcConf) : Option ConfErr × LxcConf :=
  match strstrSplit "lxc.cgroup.".toList key.toList with
  | none => (some ConfErr.invalidDirective, conf)
  | some (_, subkey) =>
    if subkey.length = 0 then (some ConfErr.invalidDirective, conf)
    else if subkey.length = "lxc.cgroup.".toList.length then
      (some ConfErr.invalidDirective, conf)
    else
      let cgelem : LxcCgroup :=
        { subsystem := String.mk (subkey.drop "lxc.cgroup.".toList.length), value := value }
      (none, { conf with cgroup := lxc_list_add_tail conf.cgroup cgelem })

def config_fstab (key value : String) (conf : LxcConf) : Option ConfErr × LxcConf :=
  if value.length ≥ MAXPATHLEN then (some ConfErr.pathTooLong, conf)
  else (none, { conf with fstab := some value })

/-- `config_mount`: a key containing "lxc.mount.entry" appends the value to
the mount-entries list; otherwise a key containing "lxc.mount" is delegated
to `config_fstab`. -/
def config_mount (key value : String) (conf : LxcConf) : Option ConfErr × LxcConf :=
  match strstrSplit "lxc.mount.entry".toList key.toList with
  | none =>
    match strstrSplit "lxc.mount".toList key.toList with
    | none => (some ConfErr.invalidDirective, conf)
    | some _ => config_fstab key value conf
  | some (_, subkey) =>
    if subkey.length = 0 then (some ConfErr.invalidDirective, conf)
    else (none, { conf with mount_list := lxc_list_add_tail conf.mount_list value })

def config_rootfs (key value : String) (conf : LxcConf) : Option ConfErr × LxcConf :=
  if value.length ≥ MAXPATHLEN then (some ConfErr.pathTooLong, conf)
  else (none, { conf with rootfs := some value })

def config_pivotdir (key value : String) (conf : LxcConf) : Option ConfErr × LxcConf :=
  if value.length ≥ MAXPATHLEN then (some ConfErr.pathTooLong, conf)
  else (none, { conf with pivotdir := some value })

def config_utsname (key value : String) (conf : LxcConf) : Option ConfErr × LxcConf :=
  if value.length ≥ utsname_nodename_size then (some ConfErr.nameTooLong, conf)
  else (none, { conf with utsname := some value })

/-! ## Dispatch table and line parser (confile.c) -/

/-- The `config[]` table, in source order. -/
def config_table : List (String × (String → String → LxcConf → Option ConfErr × LxcConf)) :=
  [("lxc.pts", config_pts),
   ("lxc.tty", config_tty),
   ("lxc.cgroup", config_cgroup),
   ("lxc.mount", config_mount),
   ("lxc.rootfs", config_rootfs),
   ("lxc.utsname", config_utsname),
   ("lxc.network.type", config_network_type),
   ("lxc.pivotdir", config_pivotdir),
   ("lxc.network.flags", config_network_flags),
   ("lxc.network.link", config_network_link),
   ("lxc.network.name", config_network_name),
   ("lxc.network.hwaddr", config_network_hwaddr),
   ("lxc.network.mtu", config_network_mtu),
   ("lxc.network.ipv4", config_network_ipv4),
   ("lxc.network.ipv6", config_network_ipv6)]

/-- `getconfig`: first table entry whose name, compared with
`strncmp(name, key, strlen(name))`, is a textual prefix of the key. -/
def getconfig (key : String) : Option (String → String → LxcConf → Option ConfErr × LxcConf) :=
  (config_table.find? (fun e => e.1.toList.isPrefixOf key.toList)).map Prod.snd

/-! Modelled from the spec: the character-class trimming primitives
(`lxc_is_line_empty`, `lxc_char_left_gc`, `lxc_char_right_gc`) live in
parse.c, not under src/; the spec calls them external "generic
character-class trimming primitives" performing symmetric whitespace
trimming. -/

def isGc (c : Char) : Bool := (c == ' ') || (c == '\t') || (c == '\n')

def lxc_is_line_empty (line : String) : Bool := line.toList.all isGc

def ltrimList (cs : List Char) : List Char := cs.dropWhile isGc

def rtrimList (cs : List Char) : List Char := (cs.reverse.dropWhile isGc).reverse

/-- `parse_line`: skip all-blank lines and lines starting (after left-trim)
with a hash; split at the first equals sign; trim key and value; dispatch
through `getconfig`. -/
def parse_line (line : String) (conf : LxcConf) : Option ConfErr × LxcConf :=
  if lxc_is_line_empty line then (none, conf)
  else
    let l := ltrimList line.toList
    if l.head? = some '#' then (none, conf)
    else
      match strstrSplit ['='] l with
      | none => (some ConfErr.invalidDirective, conf)
      | some (k, suf) =>
        let key := String.mk (rtrimList k)
        let value := String.mk (rtrimList (ltrimList (suf.drop 1)))
        match getconfig key with
        | none => (some ConfErr.unknownDirective, conf)
        | some cb => cb key value conf

/-! ## Sample aggregates used by concrete instantiations -/

/-- The empty aggregate a read session starts from. -/
def conf0 : LxcConf :=
  { network := [], cgroup := [], mount_list := [], fstab := none, rootfs := none,
    pivotdir := none, utsname := none, pts := 0, tty := 0 }

/-- One freshly declared (zeroed) device. -/
def conf1 : LxcConf := { conf0 with network := [emptyNetdev] }

def dVeth : LxcNetdev := { emptyNetdev with type := NetType.veth }

def dMac : LxcNetdev := { emptyNetdev with type := NetType.macvlan }

/-- The aggregate after `lxc.network.type = veth` then
`lxc.network.type = macvlan`. -/
def conf2 : LxcConf :=
  (config_network_type "lxc.network.type" "macvlan"
    (config_network_type "lxc.network.type" "veth" conf0).2).2

/-! ## Helper lemmas -/

theorem parseDecOctet_le (cs : List Char) (n : Nat) (h : parseDecOctet cs = some n) :
    n ≤ 255 := by
  simp only [parseDecOctet] at h
  split at h
  · exact absurd h (by simp)
  split at h
  · exact absurd h (by simp)
  split at h
  · split at h
    · rename_i hle
      have hn := Option.some_inj.mp h
      exact hn ▸ hle
    · exact absurd h (by simp)
  · exact absurd h (by simp)

theorem inet_pton4_lt (s : String) (a : Nat) (h : inet_pton4 s = some a) :
    a < 4294967296 := by
  unfold inet_pton4 at h
  split at h
  · split at h
    · rename_i o1 o2 o3 o4 h1 h2 h3 h4
      have b1 := parseDecOctet_le _ _ h1
      have b2 := parseDecOctet_le _ _ h2
      have b3 := parseDecOctet_le _ _ h3
      have b4 := parseDecOctet_le _ _ h4
      have := Option.some_inj.mp h
      omega
    · exact absurd h (by simp)
  · exact absurd h (by simp)

theorem strstrSplit_suf_ne_nil (needle hay pre suf : List Char)
    (hne : needle ≠ []) (h : strstrSplit needle hay = some (pre, suf)) : suf ≠ [] := by
  induction hay generalizing pre with
  | nil =>
    rw [strstrSplit, if_neg hne] at h
    exact absurd h (by simp)
  | cons c cs ih =>
    rw [strstrSplit] at h
    split at h
    · simp only [Option.some.injEq, Prod.mk.injEq] at h
      obtain ⟨h1, h2⟩ := h
      simp [← h2]
    · split at h
      · rename_i pre1 suf1 hp
        simp only [Option.some.injEq, Prod.mk.injEq] at h
        obtain ⟨h1, h2⟩ := h
        subst h2
        exact ih pre1 hp
      · exact absurd h (by simp)

/-! ## Claims -/

/-- C8: the lxc.utsname handler fails with NameTooLong for every value whose
length is at least the platform host-name field size (so a value exactly at
the limit fails), and succeeds — storing the host name — for every value one
character shorter than the limit. -/
theorem C8_utsname_limit :
    (∀ k v conf, utsname_nodename_size ≤ v.length →
      config_utsname k v conf = (some ConfErr.nameTooLong, conf)) ∧
    (∀ k v conf, v.length = utsname_nodename_size - 1 →
      config_utsname k v conf = (none, { conf with utsname := some v })) := by
  constructor
  · intro k v conf h
    simp only [config_utsname]
    rw [if_pos h]
  · intro k v conf h
    simp only [config_utsname]
    rw [if_neg (by rw [h]; decide)]

/-- Witness for C8 at a value of exactly 65 characters (the Linux utsname
nodename field size), which is rejected. -/
theorem C8_utsname_limit_witness :
    config_utsname "lxc.utsname"
      "aaaaaaaaaaaaaaaaaaaaaaaaaaaaaaaaaaaaaaaaaaaaaaaaaaaaaaaaaaaaaaaaa" conf0 =
      (some ConfErr.nameTooLong, conf0) :=
  C8_utsname_limit.1 "lxc.utsname"
    "aaaaaaaaaaaaaaaaaaaaaaaaaaaaaaaaaaaaaaaaaaaaaaaaaaaaaaaaaaaaaaaaa" conf0 (by decide)

/-- C9: the lxc.network.flags handler is idempotent — with at least one
declared device, applying it twice yields exactly the state of applying it
once (the "up" bit is set by OR and nothing else changes). -/
theorem C9_flags_idem (k v : String) (conf : LxcConf) (h : conf.network ≠ []) :
    config_network_flags k v (config_network_flags k v conf).2 =
      config_network_flags k v conf := by
  cases hn : conf.network with
  | nil => exact absurd hn h
  | cons d rest =>
    simp only [config_network_flags, network_netdev, lxc_list_first_elem, hn,
      List.head?_cons, setHead, IFF_UP, Nat.or_assoc]
    simp

/-- Witness for C9 on an aggregate with one declared device. -/
theorem C9_flags_idem_witness :
    config_network_flags "lxc.network.flags" "up"
        (config_network_flags "lxc.network.flags" "up" conf1).2 =
      config_network_flags "lxc.network.flags" "up" conf1 :=
  C9_flags_idem "lxc.network.flags" "up" conf1 (by decide)

/-- C10: each scalar handler writes only its own aggregate field — a
successful lxc.rootfs (resp. lxc.pivotdir, lxc.pts, lxc.tty) directive
changes only the root filesystem path (resp. pivot directory path, pty
count, tty count), leaving every other field of the aggregate unchanged. -/
theorem C10_scalar_frame :
    (∀ k v conf, v.length < MAXPATHLEN →
      config_rootfs k v conf = (none, { conf with rootfs := some v })) ∧
    (∀ k v conf, v.length < MAXPATHLEN →
      config_pivotdir k v conf = (none, { conf with pivotdir := some v })) ∧
    (∀ k v conf, config_pts k v conf = (none, { conf with pts := atoi v })) ∧
    (∀ k v conf, config_tty k v conf = (none, { conf with tty := atoi v })) := by
  refine ⟨?_, ?_, ?_, ?_⟩
  · intro k v conf h
    simp only [config_rootfs]
    rw [if_neg (Nat.not_le.mpr h)]
  · intro k v conf h
    simp only [config_pivotdir]
    rw [if_neg (Nat.not_le.mpr h)]
  · intro k v conf
    simp only [config_pts]
  · intro k v conf
    simp only [config_tty]

/-- Witness for C10: a short rootfs path is stored with every other field
untouched. -/
theorem C10_scalar_frame_witness :
    config_rootfs "lxc.rootfs" "/srv/root" conf0 =
      (none, { conf0 with rootfs := some "/srv/root" }) :=
  C10_scalar_frame.1 "lxc.rootfs" "/srv/root" conf0 (by decide)

/-- The classful derivation of config_ip_prefix, phrased on the address's
first octet: class A (below 128) gives 8, class B (128 to 191) gives 16,
class C (192 to 223) gives 24, anything else 0. -/
theorem config_ip_prefix_classful (a : Nat) (h32 : a < 4294967296) :
    (a / 16777216 < 128 → config_ip_prefix a = 8) ∧
    (128 ≤ a / 16777216 → a / 16777216 < 192 → config_ip_prefix a = 16) ∧
    (192 ≤ a / 16777216 → a / 16777216 < 224 → config_ip_prefix a = 24) ∧
    (224 ≤ a / 16777216 → config_ip_prefix a = 0) := by
  refine ⟨?_, ?_, ?_, ?_⟩
  · intro h1
    simp only [ config_ip_prefix]
    rw [if_pos (by omega)]
    decide
  · intro h1 h2
    simp only [ config_ip_prefix]
    rw [if_neg (by omega), if_pos (by omega)]
    decide
  · intro h1 h2
    simp only [ config_ip_prefix]
    rw [if_neg (by omega), if_neg (by omega), if_pos (by omega)]
    decide
  · intro h1
    simp only [ config_ip_prefix]
    rw [if_neg (by omega), if_neg (by omega), if_neg (by omega)]

/-- C1: for every lxc.network.ipv4 directive whose value carries no explicit
slash-separated prefix in its address token — whether or not a
space-separated broadcast token follows — the prefix length stored in the
new IPv4 binding is derived solely from the address's historical class:
first octet below 128 (class A) gives 8, 128 to 191 (class B) gives 16,
192 to 223 (class C) gives 24, and any other address gives 0. -/
theorem C1_ipv4_classful :
    (∀ k conf d rest v a, conf.network = d :: rest →
      splitAtFirst " " v = none →
      splitAtFirst "/" v = none →
      inet_pton4 v = some a →
      ∃ b : LxcInetdev,
        config_network_ipv4 k v conf =
          (none, { conf with network := { d with ipv4 := b :: d.ipv4 } :: rest }) ∧
        b.addr = a ∧ b.bcast = 0 ∧
        (a / 16777216 < 128 → b.prefixlen = 8) ∧
        (128 ≤ a / 16777216 → a / 16777216 < 192 → b.prefixlen = 16) ∧
        (192 ≤ a / 16777216 → a / 16777216 < 224 → b.prefixlen = 24) ∧
        (224 ≤ a / 16777216 → b.prefixlen = 0)) ∧
    (∀ k conf d rest v x bv a bb, conf.network = d :: rest →
      splitAtFirst " " v = some (x, bv) →
      splitAtFirst "/" x = none →
      inet_pton4 x = some a →
      inet_pton4 bv = some bb →
      ∃ b : LxcInetdev,
        config_network_ipv4 k v conf =
          (none, { conf with network := { d with ipv4 := b :: d.ipv4 } :: rest }) ∧
        b.addr = a ∧ b.bcast = bb ∧
        (a / 16777216 < 128 → b.prefixlen = 8) ∧
        (128 ≤ a / 16777216 → a / 16777216 < 192 → b.prefixlen = 16) ∧
        (192 ≤ a / 16777216 → a / 16777216 < 224 → b.prefixlen = 24) ∧
        (224 ≤ a / 16777216 → b.prefixlen = 0)) := by
  constructor
  · intro k conf d rest v a hnet hsp hsl hpt
    have ha32 := inet_pton4_lt v a hpt
    have hc := config_ip_prefix_classful a ha32
    refine ⟨{ addr := a, bcast := 0, prefixlen := config_ip_prefix a }, ?_, rfl, rfl,
      hc.1, hc.2.1, hc.2.2.1, hc.2.2.2⟩
    simp only [config_network_ipv4, network_netdev, lxc_list_first_elem, hnet,
      List.head?_cons, hsp, hsl, hpt, setHead, lxc_list_add]
  · intro k conf d rest v x bv a bb hnet hsp hsl ha hb
    have ha32 := inet_pton4_lt x a ha
    have hc := config_ip_prefix_classful a ha32
    refine ⟨{ addr := a, bcast := bb, prefixlen := config_ip_prefix a }, ?_, rfl, rfl,
      hc.1, hc.2.1, hc.2.2.1, hc.2.2.2⟩
    simp only [config_network_ipv4, network_netdev, lxc_list_first_elem, hnet,
      List.head?_cons, hsp, hsl, ha, hb, setHead, lxc_list_add]

/-- Witness for C1 at the broadcast-carrying, prefix-free value
10.0.0.5 10.0.0.255 (address 167772165, broadcast 167772415): the stored
prefix length is the classful class-A default. -/
theorem C1_ipv4_classful_witness :
    ∃ b : LxcInetdev,
      config_network_ipv4 "lxc.network.ipv4" "10.0.0.5 10.0.0.255" conf1 =
        (none, { conf1 with network :=
          { emptyNetdev with ipv4 := b :: emptyNetdev.ipv4 } :: [] }) ∧
      b.addr = 167772165 ∧ b.bcast = 167772415 ∧
      (167772165 / 16777216 < 128 → b.prefixlen = 8) ∧
      (128 ≤ 167772165 / 16777216 → 167772165 / 16777216 < 192 → b.prefixlen = 16) ∧
      (192 ≤ 167772165 / 16777216 → 167772165 / 16777216 < 224 → b.prefixlen = 24) ∧
      (224 ≤ 167772165 / 16777216 → b.prefixlen = 0) :=
  C1_ipv4_classful.2 "lxc.network.ipv4" conf1 emptyNetdev [] "10.0.0.5 10.0.0.255"
    "10.0.0.5" "10.0.0.255" 167772165 167772415 rfl (by decide) (by decide) (by decide)
    (by decide)

/-- C2 is false of the code: an lxc.network.type directive with an
unrecognized value fails but leaves a freshly attached zero-initialized
device prepended to the device list, so the aggregate is modified by a
failing handler. -/
theorem C2_fail_mutates_cex :
    (config_network_type "lxc.network.type" "bogus" conf0).1 = some ConfErr.invalidValue ∧
    (config_network_type "lxc.network.type" "bogus" conf0).2 ≠ conf0 := by
  decide

/-- C2 amended: config_network_type attaches the new zero-initialized device
to the device list before validating the type value, so on failure the
aggregate holds that extra device; every other handler that fails leaves the
aggregate exactly unmodified. -/
theorem C2_fail_frame_amended :
    (∀ k v conf e, (config_network_type k v conf).1 = some e →
      (config_network_type k v conf).2 =
        { conf with network := lxc_list_add conf.network emptyNetdev }) ∧
    (∀ k v conf e, (config_network_flags k v conf).1 = some e →
      (config_network_flags k v conf).2 = conf) ∧
    (∀ k v conf e, (config_network_link k v conf).1 = some e →
      (config_network_link k v conf).2 = conf) ∧
    (∀ k v conf e, (config_network_name k v conf).1 = some e →
      (config_network_name k v conf).2 = conf) ∧
    (∀ k v conf e, (config_network_hwaddr k v conf).1 = some e →
      (config_network_hwaddr k v conf).2 = conf) ∧
    (∀ k v conf e, (config_network_mtu k v conf).1 = some e →
      (config_network_mtu k v conf).2 = conf) ∧
    (∀ k v conf e, (config_network_ipv4 k v conf).1 = some e →
      (config_network_ipv4 k v conf).2 = conf) ∧
    (∀ k v conf e, (config_network_ipv6 k v conf).1 = some e →
      (config_network_ipv6 k v conf).2 = conf) ∧
    (∀ k v conf e, (config_pts k v conf).1 = some e → (config_pts k v conf).2 = conf) ∧
    (∀ k v conf e, (config_tty k v conf).1 = some e → (config_tty k v conf).2 = conf) ∧
    (∀ k v conf e, (config_cgroup k v conf).1 = some e → (config_cgroup k v conf).2 = conf) ∧
    (∀ k v conf e, (config_fstab k v conf).1 = some e → (config_fstab k v conf).2 = conf) ∧
    (∀ k v conf e, (config_mount k v conf).1 = some e → (config_mount k v conf).2 = conf) ∧
    (∀ k v conf e, (config_rootfs k v conf).1 = some e → (config_rootfs k v conf).2 = conf) ∧
    (∀ k v conf e, (config_pivotdir k v conf).1 = some e →
      (config_pivotdir k v conf).2 = conf) ∧
    (∀ k v conf e, (config_utsname k v conf).1 = some e →
      (config_utsname k v conf).2 = conf) := by
  refine ⟨?_, ?_, ?_, ?_, ?_, ?_, ?_, ?_, ?_, ?_, ?_, ?_, ?_, ?_, ?_, ?_⟩
  all_goals intro k v conf e
  · unfold config_network_type
    dsimp only
    repeat' split
    all_goals intro h
    all_goals first | rfl | simp at h
  · unfold config_network_flags network_netdev lxc_list_first_elem
    repeat' split
    all_goals intro h
    all_goals first | rfl | simp at h
  · unfold config_network_link network_netdev lxc_list_first_elem network_ifname
    repeat' split
    all_goals intro h
    all_goals first | rfl | simp at h
  · unfold config_network_name network_netdev lxc_list_first_elem network_ifname
    repeat' split
    all_goals intro h
    all_goals first | rfl | simp at h
  · unfold config_network_hwaddr network_netdev lxc_list_first_elem
    repeat' split
    all_goals intro h
    all_goals first | rfl | simp at h
  · unfold config_network_mtu network_netdev lxc_list_first_elem
    repeat' split
    all_goals intro h
    all_goals first | rfl | simp at h
  · unfold config_network_ipv4 network_netdev lxc_list_first_elem
    dsimp only
    repeat' split
    all_goals intro h
    all_goals first | rfl | simp at h
  · unfold config_network_ipv6 network_netdev lxc_list_first_elem
    dsimp only
    repeat' split
    all_goals intro h
    all_goals first | rfl | simp at h
  · unfold config_pts
    intro h
    simp at h
  · unfold config_tty
    intro h
    simp at h
  · unfold config_cgroup
    repeat' split
    all_goals intro h
    all_goals first | rfl | simp at h
  · unfold config_fstab
    repeat' split
    all_goals intro h
    all_goals first | rfl | simp at h
  · unfold config_mount config_fstab
    repeat' split
    all_goals intro h
    all_goals first | rfl | simp at h
  · unfold config_rootfs
    repeat' split
    all_goals intro h
    all_goals first | rfl | simp at h
  · unfold config_pivotdir
    repeat' split
    all_goals intro h
    all_goals first | rfl | simp at h
  · unfold config_utsname
    repeat' split
    all_goals intro h
    all_goals first | rfl | simp at h

/-- Witness for C2 amended: a failing lxc.network.flags directive (no device
declared) leaves the empty aggregate unchanged. -/
theorem C2_fail_frame_amended_witness :
    (config_network_flags "lxc.network.flags" "up" conf0).2 = conf0 :=
  C2_fail_frame_amended.2.1 "lxc.network.flags" "up" conf0 ConfErr.missingContext (by decide)

/-- C3 is false of the code for the binding lists: two successive
lxc.network.ipv4 directives (10.0.0.1 then 10.0.0.2, numeric 167772161 and
167772162) leave the current device's ipv4 list with the newest binding
first — reverse declaration order — not oldest first as claimed. -/
theorem C3_binding_order_cex :
    ((config_network_ipv4 "lxc.network.ipv4" "10.0.0.2"
        (config_network_ipv4 "lxc.network.ipv4" "10.0.0.1" conf1).2).2.network.map
      (fun d => d.ipv4.map LxcInetdev.addr) = [[167772162, 167772161]]) ∧
    ¬ ((config_network_ipv4 "lxc.network.ipv4" "10.0.0.2"
        (config_network_ipv4 "lxc.network.ipv4" "10.0.0.1" conf1).2).2.network.map
      (fun d => d.ipv4.map LxcInetdev.addr) = [[167772161, 167772162]]) := by
  decide

/-- C3 amended: lxc.network.type directives prepend to the device list, and
successive lxc.network.ipv4 / lxc.network.ipv6 directives on the current
device also prepend to its binding lists (the code inserts with the same
head-insertion primitive), so bindings are stored newest first — reverse
declaration order. -/
theorem C3_list_order_amended :
    (∀ k v conf, ∃ nd, (config_network_type k v conf).2.network = nd :: conf.network) ∧
    (∀ k v conf d rest c2, conf.network = d :: rest →
      config_network_ipv4 k v conf = (none, c2) →
      ∃ b, c2.network = { d with ipv4 := b :: d.ipv4 } :: rest) ∧
    (∀ k v conf d rest c2, conf.network = d :: rest →
      config_network_ipv6 k v conf = (none, c2) →
      ∃ b, c2.network = { d with ipv6 := b :: d.ipv6 } :: rest) := by
  refine ⟨?_, ?_, ?_⟩
  · intro k v conf
    unfold config_network_type
    dsimp only
    repeat' split
    all_goals exact ⟨_, rfl⟩
  · intro k v conf d rest c2 hnet heq
    unfold config_network_ipv4 at heq
    simp only [network_netdev, lxc_list_first_elem, hnet, List.head?_cons] at heq
    repeat' split at heq
    all_goals simp at heq
    all_goals subst heq
    all_goals exact ⟨_, rfl⟩
  · intro k v conf d rest c2 hnet heq
    unfold config_network_ipv6 at heq
    simp only [network_netdev, lxc_list_first_elem, hnet, List.head?_cons] at heq
    repeat' split at heq
    all_goals simp at heq
    all_goals subst heq
    all_goals exact ⟨_, rfl⟩

/-- Witness for C3 amended: a successful ipv4 directive on a one-device
aggregate prepends its binding to the head device. -/
theorem C3_list_order_amended_witness :
    ∃ b, (config_network_ipv4 "lxc.network.ipv4" "10.0.0.1" conf1).2.network =
      { emptyNetdev with ipv4 := b :: emptyNetdev.ipv4 } :: [] :=
  C3_list_order_amended.2.1 "lxc.network.ipv4" "10.0.0.1" conf1 emptyNetdev []
    (config_network_ipv4 "lxc.network.ipv4" "10.0.0.1" conf1).2 rfl (by decide)

/-- C4: every device sub-field directive (flags, link, name, hwaddr, mtu,
ipv4, ipv6) fails with MissingContext and leaves the aggregate unchanged
when no device has been declared, and otherwise mutates at most the
most-recently-declared device (the list head): whatever the outcome, the
resulting aggregate differs from the input only in the head device, with
all older devices and all other fields untouched. -/
theorem C4_current_device :
    (∀ k v conf, conf.network = [] →
      config_network_flags k v conf = (some ConfErr.missingContext, conf) ∧
      config_network_link k v conf = (some ConfErr.missingContext, conf) ∧
      config_network_name k v conf = (some ConfErr.missingContext, conf) ∧
      config_network_hwaddr k v conf = (some ConfErr.missingContext, conf) ∧
      config_network_mtu k v conf = (some ConfErr.missingContext, conf) ∧
      config_network_ipv4 k v conf = (some ConfErr.missingContext, conf) ∧
      config_network_ipv6 k v conf = (some ConfErr.missingContext, conf)) ∧
    (∀ k v conf d rest, conf.network = d :: rest →
      (∀ r c2, config_network_flags k v conf = (r, c2) →
        ∃ d2, c2 = { conf with network := d2 :: rest }) ∧
      (∀ r c2, config_network_link k v conf = (r, c2) →
        ∃ d2, c2 = { conf with network := d2 :: rest }) ∧
      (∀ r c2, config_network_name k v conf = (r, c2) →
        ∃ d2, c2 = { conf with network := d2 :: rest }) ∧
      (∀ r c2, config_network_hwaddr k v conf = (r, c2) →
        ∃ d2, c2 = { conf with network := d2 :: rest }) ∧
      (∀ r c2, config_network_mtu k v conf = (r, c2) →
        ∃ d2, c2 = { conf with network := d2 :: rest }) ∧
      (∀ r c2, config_network_ipv4 k v conf = (r, c2) →
        ∃ d2, c2 = { conf with network := d2 :: rest }) ∧
      (∀ r c2, config_network_ipv6 k v conf = (r, c2) →
        ∃ d2, c2 = { conf with network := d2 :: rest })) := by
  constructor
  · intro k v conf h
    refine ⟨?_, ?_, ?_, ?_, ?_, ?_, ?_⟩
    all_goals simp only [config_network_flags, config_network_link, config_network_name,
      config_network_hwaddr, config_network_mtu, config_network_ipv4, config_network_ipv6,
      network_netdev, lxc_list_first_elem, h, List.head?_nil]
  · intro k v conf d rest hnet
    refine ⟨?_, ?_, ?_, ?_, ?_, ?_, ?_⟩
    all_goals intro r c2 heq
    · unfold config_network_flags at heq
      simp only [network_netdev, lxc_list_first_elem, hnet, List.head?_cons] at heq
      repeat' split at heq
      all_goals simp at heq
      all_goals obtain ⟨h1, h2⟩ := heq
      all_goals subst h2
      all_goals first
        | exact ⟨_, rfl⟩
        | (refine ⟨d, ?_⟩; rw [← hnet])
    · unfold config_network_link network_ifname at heq
      simp only [network_netdev, lxc_list_first_elem, hnet, List.head?_cons] at heq
      repeat' split at heq
      all_goals simp at heq
      all_goals obtain ⟨h1, h2⟩ := heq
      all_goals subst h2
      all_goals first
        | exact ⟨_, rfl⟩
        | (refine ⟨d, ?_⟩; rw [← hnet])
    · unfold config_network_name network_ifname at heq
      simp only [network_netdev, lxc_list_first_elem, hnet, List.head?_cons] at heq
      repeat' split at heq
      all_goals simp at heq
      all_goals obtain ⟨h1, h2⟩ := heq
      all_goals subst h2
      all_goals first
        | exact ⟨_, rfl⟩
        | (refine ⟨d, ?_⟩; rw [← hnet])
    · unfold config_network_hwaddr at heq
      simp only [network_netdev, lxc_list_first_elem, hnet, List.head?_cons] at heq
      repeat' split at heq
      all_goals simp at heq
      all_goals obtain ⟨h1, h2⟩ := heq
      all_goals subst h2
      all_goals first
        | exact ⟨_, rfl⟩
        | (refine ⟨d, ?_⟩; rw [← hnet])
    · unfold config_network_mtu at heq
      simp only [network_netdev, lxc_list_first_elem, hnet, List.head?_cons] at heq
      repeat' split at heq
      all_goals simp at heq
      all_goals obtain ⟨h1, h2⟩ := heq
      all_goals subst h2
      all_goals first
        | exact ⟨_, rfl⟩
        | (refine ⟨d, ?_⟩; rw [← hnet])
    · unfold config_network_ipv4 at heq
      simp only [network_netdev, lxc_list_first_elem, hnet, List.head?_cons] at heq
      repeat' split at heq
      all_goals simp at heq
      all_goals obtain ⟨h1, h2⟩ := heq
      all_goals subst h2
      all_goals first
        | exact ⟨_, rfl⟩
        | (refine ⟨d, ?_⟩; rw [← hnet])
    · unfold config_network_ipv6 at heq
      simp only [network_netdev, lxc_list_first_elem, hnet, List.head?_cons] at heq
      repeat' split at heq
      all_goals simp at heq
      all_goals obtain ⟨h1, h2⟩ := heq
      all_goals subst h2
      all_goals first
        | exact ⟨_, rfl⟩
        | (refine ⟨d, ?_⟩; rw [← hnet])

/-- Witness for C4 at the spec's scenario: after type=veth then
type=macvlan, a link=eth0 directive changes only the head (macvlan) device
and leaves the veth device as the untouched tail. -/
theorem C4_current_device_witness :
    ∃ d2, (config_network_link "lxc.network.link" "eth0" conf2).2 =
      { conf2 with network := d2 :: [dVeth] } :=
  (C4_current_device.2 "lxc.network.link" "eth0" conf2 dMac [dVeth] (by decide)).2.1
    (config_network_link "lxc.network.link" "eth0" conf2).1
    (config_network_link "lxc.network.link" "eth0" conf2).2 rfl

/-- C5: the lxc.network.ipv4 handler splits off an optional space-separated
broadcast token first, then an optional slash-separated prefix from the
remaining address token; with both present and both addresses well-formed it
stores address, numeric prefix and broadcast (and with only a prefix it
stores address and numeric prefix), while a malformed address or broadcast
token — with or without the optional space and slash parts — fails with
InvalidAddress leaving the aggregate unchanged. -/
theorem C5_ipv4_grammar :
    (∀ k conf d rest v x av bv pv a b, conf.network = d :: rest →
      splitAtFirst " " v = some (x, bv) →
      splitAtFirst "/" x = some (av, pv) →
      inet_pton4 av = some a →
      inet_pton4 bv = some b →
      config_network_ipv4 k v conf =
        (none, { conf with network :=
          { d with ipv4 :=
            ({ addr := a, bcast := b, prefixlen := atoi pv } : LxcInetdev) :: d.ipv4 } :: rest })) ∧
    (∀ k conf d rest v x bv, conf.network = d :: rest →
      splitAtFirst " " v = some (x, bv) →
      splitAtFirst "/" x = none →
      inet_pton4 x = none →
      config_network_ipv4 k v conf = (some ConfErr.invalidAddress, conf)) ∧
    (∀ k conf d rest v x av bv pv, conf.network = d :: rest →
      splitAtFirst " " v = some (x, bv) →
      splitAtFirst "/" x = some (av, pv) →
      inet_pton4 av = none →
      config_network_ipv4 k v conf = (some ConfErr.invalidAddress, conf)) ∧
    (∀ k conf d rest v x av bv pv a, conf.network = d :: rest →
      splitAtFirst " " v = some (x, bv) →
      splitAtFirst "/" x = some (av, pv) →
      inet_pton4 av = some a →
      inet_pton4 bv = none →
      config_network_ipv4 k v conf = (some ConfErr.invalidAddress, conf)) ∧
    (∀ k conf d rest v, conf.network = d :: rest →
      splitAtFirst " " v = none →
      splitAtFirst "/" v = none →
      inet_pton4 v = none →
      config_network_ipv4 k v conf = (some ConfErr.invalidAddress, conf)) ∧
    (∀ k conf d rest v av pv, conf.network = d :: rest →
      splitAtFirst " " v = none →
      splitAtFirst "/" v = some (av, pv) →
      inet_pton4 av = none →
      config_network_ipv4 k v conf = (some ConfErr.invalidAddress, conf)) ∧
    (∀ k conf d rest v av pv a, conf.network = d :: rest →
      splitAtFirst " " v = none →
      splitAtFirst "/" v = some (av, pv) →
      inet_pton4 av = some a →
      config_network_ipv4 k v conf =
        (none, { conf with network :=
          { d with ipv4 :=
            ({ addr := a, bcast := 0, prefixlen := atoi pv } : LxcInetdev)
              :: d.ipv4 } :: rest })) ∧
    (∀ k conf d rest v x bv a, conf.network = d :: rest →
      splitAtFirst " " v = some (x, bv) →
      splitAtFirst "/" x = none →
      inet_pton4 x = some a →
      inet_pton4 bv = none →
      config_network_ipv4 k v conf = (some ConfErr.invalidAddress, conf)) := by
  refine ⟨?_, ?_, ?_, ?_, ?_, ?_, ?_, ?_⟩
  · intro k conf d rest v x av bv pv a b hnet hsp hsl ha hb
    simp only [config_network_ipv4, network_netdev, lxc_list_first_elem, hnet,
      List.head?_cons, hsp, hsl, ha, hb, setHead, lxc_list_add]
  · intro k conf d rest v x bv hnet hsp hsl ha
    simp only [config_network_ipv4, network_netdev, lxc_list_first_elem, hnet,
      List.head?_cons, hsp, hsl, ha]
  · intro k conf d rest v x av bv pv hnet hsp hsl ha
    simp only [config_network_ipv4, network_netdev, lxc_list_first_elem, hnet,
      List.head?_cons, hsp, hsl, ha]
  · intro k conf d rest v x av bv pv a hnet hsp hsl ha hb
    simp only [config_network_ipv4, network_netdev, lxc_list_first_elem, hnet,
      List.head?_cons, hsp, hsl, ha, hb]
  · intro k conf d rest v hnet hsp hsl hpt
    simp only [config_network_ipv4, network_netdev, lxc_list_first_elem, hnet,
      List.head?_cons, hsp, hsl, hpt]
  · intro k conf d rest v av pv hnet hsp hsl ha
    simp only [config_network_ipv4, network_netdev, lxc_list_first_elem, hnet,
      List.head?_cons, hsp, hsl, ha]
  · intro k conf d rest v av pv a hnet hsp hsl ha
    simp only [config_network_ipv4, network_netdev, lxc_list_first_elem, hnet,
      List.head?_cons, hsp, hsl, ha, setHead, lxc_list_add]
  · intro k conf d rest v x bv a hnet hsp hsl ha hb
    simp only [config_network_ipv4, network_netdev, lxc_list_first_elem, hnet,
      List.head?_cons, hsp, hsl, ha, hb]

/-- Witness for C5 at the spec's example value 10.0.0.5/24 10.0.0.255
(numeric address 167772165, broadcast 167772415). -/
theorem C5_ipv4_grammar_witness :
    config_network_ipv4 "lxc.network.ipv4" "10.0.0.5/24 10.0.0.255" conf1 =
      (none, { conf1 with network :=
        { emptyNetdev with ipv4 :=
          ({ addr := 167772165, bcast := 167772415, prefixlen := atoi "24" } : LxcInetdev)
            :: emptyNetdev.ipv4 } :: [] }) :=
  C5_ipv4_grammar.1 "lxc.network.ipv4" conf1 emptyNetdev [] "10.0.0.5/24 10.0.0.255"
    "10.0.0.5/24" "10.0.0.5" "10.0.0.255" "24" 167772165 167772415 rfl (by decide) (by decide)
    (by decide) (by decide)

/-- C6: a key containing the sub-string lxc.mount.entry appends the value to
the mount-entries list and leaves the fstab path unchanged; any other key
that reaches the handler (it contains lxc.mount, since dispatch matched that
prefix) sets the single fstab path — failing with PathTooLong when the
value's length reaches MAXPATHLEN — overwriting any prior value and leaving
the mount-entries list unchanged. -/
theorem C6_mount_dispatch :
    (∀ key v conf pre suf, strstrSplit "lxc.mount.entry".toList key.toList = some (pre, suf) →
      config_mount key v conf = (none, { conf with mount_list := conf.mount_list ++ [v] })) ∧
    (∀ key v conf, strstrSplit "lxc.mount.entry".toList key.toList = none →
      (strstrSplit "lxc.mount".toList key.toList).isSome = true →
      ((MAXPATHLEN ≤ v.length → config_mount key v conf = (some ConfErr.pathTooLong, conf)) ∧
       (v.length < MAXPATHLEN →
         config_mount key v conf = (none, { conf with fstab := some v })))) := by
  constructor
  · intro key v conf pre suf hs
    have hne : suf ≠ [] :=
      strstrSplit_suf_ne_nil "lxc.mount.entry".toList key.toList pre suf (by decide) hs
    simp only [config_mount, hs]
    rw [if_neg (fun h0 => hne (List.length_eq_zero.mp h0))]
    simp [lxc_list_add_tail]
  · intro key v conf hs1 hs2
    obtain ⟨p, hp⟩ := Option.isSome_iff_exists.mp hs2
    constructor
    · intro hlen
      simp only [config_mount, hs1, hp, config_fstab]
      rw [if_pos hlen]
    · intro hlen
      simp only [config_mount, hs1, hp, config_fstab]
      rw [if_neg (Nat.not_le.mpr hlen)]

/-- Witness for C6: lxc.mount sets the fstab path on the empty aggregate,
leaving the mount-entries list empty. -/
theorem C6_mount_dispatch_witness :
    config_mount "lxc.mount" "/etc/fstab.lxc" conf0 =
      (none, { conf0 with fstab := some "/etc/fstab.lxc" }) :=
  ((C6_mount_dispatch.2 "lxc.mount" "/etc/fstab.lxc" conf0 (by decide) (by decide)).2
    (by decide))

/-- C7: a line that is all blank, or whose first character after left-trim
is a hash, is skipped with no error and no aggregate change; otherwise a
line with no equals sign fails with InvalidDirective, and a well-formed line
whose trimmed key matches no dispatch-table prefix fails with
UnknownDirective — in each case leaving the aggregate unchanged. -/
theorem C7_parse_line_cases :
    (∀ line conf, lxc_is_line_empty line = true → parse_line line conf = (none, conf)) ∧
    (∀ line conf, (ltrimList line.toList).head? = some '#' →
      parse_line line conf = (none, conf)) ∧
    (∀ line conf, lxc_is_line_empty line = false →
      (ltrimList line.toList).head? ≠ some '#' →
      strstrSplit ['='] (ltrimList line.toList) = none →
      parse_line line conf = (some ConfErr.invalidDirective, conf)) ∧
    (∀ line conf k0 suf, lxc_is_line_empty line = false →
      (ltrimList line.toList).head? ≠ some '#' →
      strstrSplit ['='] (ltrimList line.toList) = some (k0, suf) →
      getconfig (String.mk (rtrimList k0)) = none →
      parse_line line conf = (some ConfErr.unknownDirective, conf)) := by
  refine ⟨?_, ?_, ?_, ?_⟩
  · intro line conf h
    simp [parse_line, h]
  · intro line conf hh
    have hne : lxc_is_line_empty line = false := by
      cases hhh : lxc_is_line_empty line
      · rfl
      · exfalso
        have hnil : ltrimList line.toList = [] := by
          simp only [lxc_is_line_empty, List.all_eq_true] at hhh
          exact List.dropWhile_eq_nil_iff.mpr (fun x hx => hhh x hx)
        rw [hnil] at hh
        simp at hh
    simp only [String.toList] at hh
    simp [parse_line, hne, hh]
  · intro line conf hne hh hsp
    simp only [String.toList] at hh hsp
    simp [parse_line, hne, hh, hsp]
  · intro line conf k0 suf hne hh hsp hk
    simp only [String.toList] at hh hsp
    simp [parse_line, String.mk, hne, hh, hsp, hk]

/-- Witness for C7 at the spec's example lxc.bogus = 1: no table prefix
matches the key, so the line fails with UnknownDirective and the aggregate
is unchanged. -/
theorem C7_parse_line_cases_witness :
    parse_line "lxc.bogus = 1" conf0 = (some ConfErr.unknownDirective, conf0) :=
  C7_parse_line_cases.2.2.2 "lxc.bogus = 1" conf0 "lxc.bogus ".toList "= 1".toList
    (by decide) (by decide) (by decide) (by rfl)
